import Mathlib

/-!
Verification development for the asynchronous execution and polling
resilience layer of `src/core/api_client.py` (class `APIClient`).

Two components are embedded:

* `execFrom` / `makeApiRequestAsync` — the retry-with-backoff request
  executor `APIClient._make_api_request_async`.  The Python loop
  `for retry in range(self.max_retries)` is modelled by structural
  recursion on the number of remaining loop iterations (`fuel`), with
  `retry` the current 0-based attempt index; `fuel = max_retries - retry`
  at every call, so the Python guard `retry < max_retries - 1` is exactly
  `fuel ≠ 1` at entry to an iteration.  The wrapped operation is an
  environment function `op : Nat → ReqOutcome α` giving the outcome of
  each attempt (success value, per-attempt deadline expiry, or another
  error).  Besides the result, the model records the observable trace:
  how many times the operation was invoked, the deadline passed to
  `asyncio.wait_for` on each attempt, and each backoff sleep duration.

* `pollStep` / `pollRun` — the run polling state machine
  `APIClient._check_run_status`.  One `pollStep` is one iteration of the
  Python `while self._run_status_check:` loop; `pollRun` iterates it with
  explicit fuel (the loop need not terminate).  The environment supplies
  the values the loop reads from the outside world: the process-wide
  stop flag at each loop-condition check, the result of each
  `runs.retrieve` / `runs.create` / `runs.cancel` call (each such call
  goes through the request executor and either returns or raises), the
  event-loop clock at each `time()` read, and the optional caller
  callback.  Errors are identified by an abstract code (`Err := Nat`).
-/

namespace APIClientModel

abbrev Err := Nat

/-! ## Request executor: `APIClient._make_api_request_async` -/

/-- Outcome of one attempt of the wrapped operation, as observed by the
executor: the awaited call returns a value, raises
`asyncio.TimeoutError` (deadline expiry), or raises some other error. -/
inductive ReqOutcome (α : Type) where
  | success (v : α)
  | timeout
  | failure (e : Err)
deriving DecidableEq, Repr

/-- How `_make_api_request_async` finishes: return a value, raise its own
`TimeoutError` after exhausting all attempts on deadline expiries,
re-raise the last attempt's original error, or fall off the end of the
`for` loop and implicitly return `None` (possible only when
`max_retries = 0`). -/
inductive ExecResult (α : Type) where
  | ok (v : α)
  | timedOutExhausted
  | errRaised (e : Err)
  | noneReturned
deriving DecidableEq, Repr

/-- Result and observable trace of one `_make_api_request_async` call:
number of invocations of the operation, the deadline handed to
`asyncio.wait_for` on each attempt (in order), and each backoff sleep
duration (in order). -/
structure ExecTrace (α : Type) where
  result : ExecResult α
  invocations : Nat
  timeouts : List Nat
  sleeps : List Nat
deriving DecidableEq, Repr

/-- The retry loop of `_make_api_request_async`, from attempt index
`retry` with `fuel` loop iterations remaining.  Mirrors the source:
`timeout = base_timeout * (retry + 1)`; on `asyncio.TimeoutError`, if
`retry < max_retries - 1` (here: `fuel ≠ 1`) sleep `1 * (retry + 1)` and
continue, else raise the executor's own `TimeoutError`; on any other
exception, same backoff policy but the final failure re-raises the
original error. -/
def execFrom (b : Nat) (op : Nat → ReqOutcome α) : Nat → Nat → ExecTrace α
  | 0, _ => ⟨.noneReturned, 0, [], []⟩
  | fuel + 1, retry =>
    let t := b * (retry + 1)
    match op retry with
    | .success v => ⟨.ok v, 1, [t], []⟩
    | .timeout =>
      if fuel = 0 then ⟨.timedOutExhausted, 1, [t], []⟩
      else
        let r := execFrom b op fuel (retry + 1)
        ⟨r.result, r.invocations + 1, t :: r.timeouts, 1 * (retry + 1) :: r.sleeps⟩
    | .failure e =>
      if fuel = 0 then ⟨.errRaised e, 1, [t], []⟩
      else
        let r := execFrom b op fuel (retry + 1)
        ⟨r.result, r.invocations + 1, t :: r.timeouts, 1 * (retry + 1) :: r.sleeps⟩

/-- `_make_api_request_async` with `max_retries = n`, `base_timeout = b`,
executing operation `op`. -/
def makeApiRequestAsync (n b : Nat) (op : Nat → ReqOutcome α) : ExecTrace α :=
  execFrom b op n 0

/-- An executor outcome that is neither a returned value nor the implicit
`None`: the call ended by raising. -/
def ExecResult.isExhaustion : ExecResult α → Bool
  | .timedOutExhausted => true
  | .errRaised _ => true
  | _ => false

/-! ## Run polling state machine: `APIClient._check_run_status` -/

/-- The run statuses the polling loop distinguishes (spec §3). -/
inductive RunStatus where
  | queued
  | in_progress
  | completed
  | requires_action
  | failed
  | expired
  | cancelled
deriving DecidableEq, Repr

/-- `run.status in ["failed", "expired", "cancelled"]` (line 35). -/
def RunStatus.isRecoverable : RunStatus → Bool
  | .failed => true
  | .expired => true
  | .cancelled => true
  | _ => false

/-- `run.status in ["queued", "in_progress"]`; line 51 tests the
negation. -/
def RunStatus.isActive : RunStatus → Bool
  | .queued => true
  | .in_progress => true
  | _ => false

/-- A run object as far as the loop reads it: which creation generation
it belongs to (0 = the run the caller handed in, incremented on every
recreation, standing in for `run_id`) and its status. -/
structure Run where
  gen : Nat
  status : RunStatus
deriving DecidableEq, Repr

/-- Everything one poll session reads from the outside world.  The
retrieve / create / cancel calls each go through the request executor
and either return or raise; their results are indexed by how many calls
of that kind the session has already made.  `clock` gives the value of
the `i`-th `asyncio.get_event_loop().time()` read.  `flag` is the
process-wide `_run_status_check` boolean as seen at the `i`-th
`while`-condition check (`cleanup` clears it asynchronously). -/
structure PollEnv where
  flag : Nat → Bool
  retrieves : Nat → Except Err RunStatus
  creates : Nat → Except Err Unit
  cancels : Nat → Except Err Unit
  clock : Nat → Nat
  callbackRes : Option (Run → Except Err Unit)

/-- The tunables `_check_run_status` consults: `self.max_run_retries`
and `self.run_timeout` (the poll-interval sleep is fixed at 1 s, line
82). -/
structure PollConfig where
  maxRunRetries : Nat
  runTimeout : Nat
deriving DecidableEq, Repr

/-- Mutable state of one poll session, plus its observable trace.
`iter`, `readIdx`, `recreations`, `cancelsAttempted`, `clockIdx` count
the flag checks, retrieve calls, create calls, cancel calls and clock
reads made so far (each also indexes the next environment value of that
kind).  `retryCount` and `startTime` are the loop's own
`retry_count` / `start_time` variables, `gen` the generation of the
current `run_id`, `sleeps` the number of 1-second poll sleeps taken,
and `callbackArgs` the run objects the callback has been invoked
with. -/
structure PState where
  iter : Nat
  readIdx : Nat
  recreations : Nat
  cancelsAttempted : Nat
  clockIdx : Nat
  retryCount : Nat
  gen : Nat
  sleeps : Nat
  startTime : Nat
  callbackArgs : List Run
deriving DecidableEq, Repr

/-- How a poll session ends.  `completedRun` is the `return run` on line
54; `cancelledFlag` is the implicit `return None` after the `while`
condition goes false; `statusExhausted` is the `Exception` on line 48;
`pollTimedOut` the `TimeoutError` on line 80; `opError` a retrieve or
create call raising through the loop; `callbackError` the caller's
callback raising. -/
inductive PollOutcome where
  | completedRun (r : Run)
  | cancelledFlag
  | statusExhausted
  | pollTimedOut
  | opError (e : Err)
  | callbackError (e : Err)
deriving DecidableEq, Repr

/-- Result of one loop iteration: continue with a new state, or leave
the loop with an outcome (return or raise). -/
inductive StepRes where
  | next (s : PState)
  | done (o : PollOutcome) (s : PState)
deriving DecidableEq, Repr

/-- One iteration of the `while self._run_status_check:` loop of
`_check_run_status`, in source order: check the flag; retrieve the run;
if the status is failed/expired/cancelled then recover (increment
`retry_count`, recreate — `start_time` is NOT touched here) or raise
once the budget is spent; if the status is terminal-success then invoke
the callback (if any) and return the run; otherwise compare elapsed
wall-clock time against `run_timeout` and on overrun cancel the stuck
run best-effort (the `try/except: pass` on lines 63-70 discards the
cancel call's outcome), recreate with a fresh `start_time`, or raise
once the budget is spent; otherwise sleep 1 s and iterate. -/
def pollStep (cfg : PollConfig) (env : PollEnv) (s : PState) : StepRes :=
  if env.flag s.iter then
    match env.retrieves s.readIdx with
    | .error e => .done (.opError e) { s with readIdx := s.readIdx + 1 }
    | .ok st =>
      let s₁ := { s with readIdx := s.readIdx + 1 }
      let run : Run := ⟨s.gen, st⟩
      if st.isRecoverable then
        if s.retryCount < cfg.maxRunRetries then
          let s₂ := { s₁ with retryCount := s.retryCount + 1 }
          match env.creates s₂.recreations with
          | .error e => .done (.opError e) { s₂ with recreations := s₂.recreations + 1 }
          | .ok _ =>
            .next { s₂ with recreations := s₂.recreations + 1, gen := s.gen + 1,
                            iter := s.iter + 1 }
        else .done .statusExhausted s₁
      else if st.isActive then
        let elapsed := env.clock s₁.clockIdx - s.startTime
        let s₂ := { s₁ with clockIdx := s₁.clockIdx + 1 }
        if cfg.runTimeout < elapsed then
          if s.retryCount < cfg.maxRunRetries then
            let cancelOutcome := env.cancels s₂.cancelsAttempted
            let s₃ := { s₂ with cancelsAttempted := s₂.cancelsAttempted + 1,
                                retryCount := s.retryCount + 1 }
            match cancelOutcome, env.creates s₃.recreations with
            | _, .error e => .done (.opError e) { s₃ with recreations := s₃.recreations + 1 }
            | _, .ok _ =>
              .next { s₃ with recreations := s₃.recreations + 1, gen := s.gen + 1,
                              startTime := env.clock s₃.clockIdx,
                              clockIdx := s₃.clockIdx + 1, iter := s.iter + 1 }
          else .done .pollTimedOut s₂
        else .next { s₂ with sleeps := s₂.sleeps + 1, iter := s.iter + 1 }
      else
        match env.callbackRes with
        | none => .done (.completedRun run) s₁
        | some cb =>
          let s₂ := { s₁ with callbackArgs := s₁.callbackArgs ++ [run] }
          match cb run with
          | .error e => .done (.callbackError e) s₂
          | .ok _ => .done (.completedRun run) s₂
  else .done .cancelledFlag s

/-- Session state at function entry: `start_time` is the first clock
read, `retry_count = 0`, nothing yet observed. -/
def initState (env : PollEnv) : PState :=
  { iter := 0, readIdx := 0, recreations := 0, cancelsAttempted := 0, clockIdx := 1,
    retryCount := 0, gen := 0, sleeps := 0, startTime := env.clock 0, callbackArgs := [] }

/-- Iterate `pollStep` for at most `fuel` loop iterations; `none` means
the session is still inside the loop after `fuel` iterations. -/
def pollRun (cfg : PollConfig) (env : PollEnv) : Nat → PState → Option (PollOutcome × PState)
  | 0, _ => none
  | fuel + 1, s =>
    match pollStep cfg env s with
    | .done o s' => some (o, s')
    | .next s' => pollRun cfg env fuel s'

/-- State carried by a step result, whether the loop continues or not. -/
def StepRes.state : StepRes → PState
  | .next s => s
  | .done _ s => s

/-! ### Concrete sessions used as witnesses and counterexamples -/

def cfgC4 : PollConfig := ⟨1, 30⟩

/-- Session where the first retrieve reports `failed` and later ones
`queued`, with the event-loop clock advancing 31 s between reads. -/
def envC4 : PollEnv :=
  { flag := fun _ => true
    retrieves := fun i => if i = 0 then .ok .failed else .ok .queued
    creates := fun _ => .ok ()
    cancels := fun _ => .ok ()
    clock := fun i => 31 * i
    callbackRes := none }

/-- The state after the first iteration of the `envC4` session: a
status-triggered recreation. -/
def stateC4 : PState :=
  { initState envC4 with readIdx := 1, retryCount := 1, recreations := 1,
                         gen := 1, iter := 1 }

def cfgC5 : PollConfig := ⟨0, 30⟩

/-- Session whose run reports `failed` on every retrieve. -/
def envC5 : PollEnv :=
  { flag := fun _ => true
    retrieves := fun _ => .ok .failed
    creates := fun _ => .ok ()
    cancels := fun _ => .ok ()
    clock := fun _ => 0
    callbackRes := none }

def cfgC6 : PollConfig := ⟨2, 30⟩

/-- Session whose run goes `queued`, `in_progress`, `completed`, with a
callback that succeeds and a clock that never overruns `run_timeout`. -/
def envC6 : PollEnv :=
  { flag := fun _ => true
    retrieves := fun i =>
      if i = 0 then .ok .queued else if i = 1 then .ok .in_progress else .ok .completed
    creates := fun _ => .ok ()
    cancels := fun _ => .ok ()
    clock := fun i => i
    callbackRes := some (fun _ => .ok ()) }

def cfgC7 : PollConfig := ⟨2, 30⟩

/-- Session whose stop flag is already cleared at the first check. -/
def envC7 : PollEnv :=
  { flag := fun _ => false
    retrieves := fun _ => .ok .queued
    creates := fun _ => .ok ()
    cancels := fun _ => .ok ()
    clock := fun _ => 0
    callbackRes := none }

def cfgC8 : PollConfig := ⟨2, 30⟩

/-- Session whose run stays `in_progress` while the clock overruns
`run_timeout` between consecutive reads. -/
def envC8 : PollEnv :=
  { flag := fun _ => true
    retrieves := fun _ => .ok .in_progress
    creates := fun _ => .ok ()
    cancels := fun _ => .ok ()
    clock := fun i => 31 * i
    callbackRes := none }

def cfgC10 : PollConfig := ⟨2, 30⟩

/-- Session whose run completes immediately but whose caller-supplied
callback raises error 7. -/
def envC10 : PollEnv :=
  { flag := fun _ => true
    retrieves := fun _ => .ok .completed
    creates := fun _ => .ok ()
    cancels := fun _ => .ok ()
    clock := fun _ => 0
    callbackRes := some (fun _ => .error 7) }

/-! ### Helper lemmas about the retry loop -/

theorem execFrom_success (b : Nat) (op : Nat → ReqOutcome α) (fuel retry : Nat) (v : α)
    (h : op retry = .success v) :
    execFrom b op (fuel + 1) retry = ⟨.ok v, 1, [b * (retry + 1)], []⟩ := by
  simp only [execFrom, h]

theorem execFrom_timeout_last (b : Nat) (op : Nat → ReqOutcome α) (retry : Nat)
    (h : op retry = .timeout) :
    execFrom b op 1 retry = ⟨.timedOutExhausted, 1, [b * (retry + 1)], []⟩ := by
  simp [execFrom, h]

theorem execFrom_timeout_step (b : Nat) (op : Nat → ReqOutcome α) (fuel retry : Nat)
    (h : op retry = .timeout) (hf : fuel ≠ 0) :
    execFrom b op (fuel + 1) retry =
      ⟨(execFrom b op fuel (retry + 1)).result,
       (execFrom b op fuel (retry + 1)).invocations + 1,
       b * (retry + 1) :: (execFrom b op fuel (retry + 1)).timeouts,
       1 * (retry + 1) :: (execFrom b op fuel (retry + 1)).sleeps⟩ := by
  simp only [execFrom, h, if_neg hf]

theorem execFrom_failure_last (b : Nat) (op : Nat → ReqOutcome α) (retry : Nat) (e : Err)
    (h : op retry = .failure e) :
    execFrom b op 1 retry = ⟨.errRaised e, 1, [b * (retry + 1)], []⟩ := by
  simp [execFrom, h]

theorem execFrom_failure_step (b : Nat) (op : Nat → ReqOutcome α) (fuel retry : Nat) (e : Err)
    (h : op retry = .failure e) (hf : fuel ≠ 0) :
    execFrom b op (fuel + 1) retry =
      ⟨(execFrom b op fuel (retry + 1)).result,
       (execFrom b op fuel (retry + 1)).invocations + 1,
       b * (retry + 1) :: (execFrom b op fuel (retry + 1)).timeouts,
       1 * (retry + 1) :: (execFrom b op fuel (retry + 1)).sleeps⟩ := by
  simp only [execFrom, h, if_neg hf]

theorem execFrom_allFail (b : Nat) (op : Nat → ReqOutcome α)
    (hop : ∀ i v, op i ≠ .success v) :
    ∀ fuel retry, 0 < fuel →
      (execFrom b op fuel retry).invocations = fuel ∧
      (execFrom b op fuel retry).sleeps.length = fuel - 1 ∧
      (execFrom b op fuel retry).result.isExhaustion = true := by
  intro fuel
  induction fuel with
  | zero => intro retry h; omega
  | succ n ih =>
    intro retry _
    cases n with
    | zero =>
      cases h : op retry with
      | success v => exact absurd h (hop retry v)
      | timeout => rw [execFrom_timeout_last b op retry h]; exact ⟨rfl, rfl, rfl⟩
      | failure e => rw [execFrom_failure_last b op retry e h]; exact ⟨rfl, rfl, rfl⟩
    | succ m =>
      have hrec := ih (retry + 1) (Nat.succ_pos m)
      cases h : op retry with
      | success v => exact absurd h (hop retry v)
      | timeout =>
        rw [execFrom_timeout_step b op (m + 1) retry h (Nat.succ_ne_zero m)]
        refine ⟨?_, ?_, hrec.2.2⟩
        · simp only [hrec.1]
        · simp only [List.length_cons, hrec.2.1]; omega
      | failure e =>
        rw [execFrom_failure_step b op (m + 1) retry e h (Nat.succ_ne_zero m)]
        refine ⟨?_, ?_, hrec.2.2⟩
        · simp only [hrec.1]
        · simp only [List.length_cons, hrec.2.1]; omega

theorem execFrom_timeouts_getD (b : Nat) (op : Nat → ReqOutcome α) :
    ∀ fuel retry i, i < (execFrom b op fuel retry).timeouts.length →
      (execFrom b op fuel retry).timeouts.getD i 0 = b * (retry + i + 1) := by
  intro fuel
  induction fuel with
  | zero => intro retry i h; simp [execFrom] at h
  | succ n ih =>
    intro retry i h
    cases hop : op retry with
    | success v =>
      rw [execFrom_success b op n retry v hop] at h ⊢
      simp only [List.length_cons, List.length_nil] at h
      have hi : i = 0 := by omega
      subst hi; simp
    | timeout =>
      cases n with
      | zero =>
        rw [execFrom_timeout_last b op retry hop] at h ⊢
        simp only [List.length_cons, List.length_nil] at h
        have hi : i = 0 := by omega
        subst hi; simp
      | succ m =>
        rw [execFrom_timeout_step b op (m + 1) retry hop (Nat.succ_ne_zero m)] at h ⊢
        cases i with
        | zero => simp
        | succ j =>
          simp only [List.length_cons] at h
          have := ih (retry + 1) j (by omega)
          simp only [List.getD_cons_succ]
          rw [this]
          congr 1
          omega
    | failure e =>
      cases n with
      | zero =>
        rw [execFrom_failure_last b op retry e hop] at h ⊢
        simp only [List.length_cons, List.length_nil] at h
        have hi : i = 0 := by omega
        subst hi; simp
      | succ m =>
        rw [execFrom_failure_step b op (m + 1) retry e hop (Nat.succ_ne_zero m)] at h ⊢
        cases i with
        | zero => simp
        | succ j =>
          simp only [List.length_cons] at h
          have := ih (retry + 1) j (by omega)
          simp only [List.getD_cons_succ]
          rw [this]
          congr 1
          omega

theorem execFrom_sleeps_getD (b : Nat) (op : Nat → ReqOutcome α) :
    ∀ fuel retry i, i < (execFrom b op fuel retry).sleeps.length →
      (execFrom b op fuel retry).sleeps.getD i 0 = 1 * (retry + i + 1) := by
  intro fuel
  induction fuel with
  | zero => intro retry i h; simp [execFrom] at h
  | succ n ih =>
    intro retry i h
    cases hop : op retry with
    | success v =>
      rw [execFrom_success b op n retry v hop] at h
      simp at h
    | timeout =>
      cases n with
      | zero =>
        rw [execFrom_timeout_last b op retry hop] at h
        simp at h
      | succ m =>
        rw [execFrom_timeout_step b op (m + 1) retry hop (Nat.succ_ne_zero m)] at h ⊢
        cases i with
        | zero => simp
        | succ j =>
          simp only [List.length_cons] at h
          have := ih (retry + 1) j (by omega)
          simp only [List.getD_cons_succ]
          rw [this]
          ring
    | failure e =>
      cases n with
      | zero =>
        rw [execFrom_failure_last b op retry e hop] at h
        simp at h
      | succ m =>
        rw [execFrom_failure_step b op (m + 1) retry e hop (Nat.succ_ne_zero m)] at h ⊢
        cases i with
        | zero => simp
        | succ j =>
          simp only [List.length_cons] at h
          have := ih (retry + 1) j (by omega)
          simp only [List.getD_cons_succ]
          rw [this]
          ring

theorem execFrom_allFailure (b : Nat) (es : Nat → Err) :
    ∀ fuel retry, 0 < fuel →
      (execFrom b (fun i => (.failure (es i) : ReqOutcome Unit)) fuel retry).result
        = .errRaised (es (retry + fuel - 1)) := by
  intro fuel
  induction fuel with
  | zero => intro retry h; omega
  | succ n ih =>
    intro retry _
    cases n with
    | zero =>
      rw [execFrom_failure_last b _ retry (es retry) rfl]
      show ExecResult.errRaised (es retry) = _
      simp
    | succ m =>
      have hrec := ih (retry + 1) (Nat.succ_pos m)
      have harg : retry + 1 + (m + 1) - 1 = retry + (m + 1 + 1) - 1 := by omega
      rw [harg] at hrec
      rw [execFrom_failure_step b _ (m + 1) retry (es retry) rfl (Nat.succ_ne_zero m)]
      exact hrec

theorem execFrom_allTimeout (b : Nat) :
    ∀ fuel retry, 0 < fuel →
      (execFrom b (fun _ => (.timeout : ReqOutcome Unit)) fuel retry).result
        = .timedOutExhausted := by
  intro fuel
  induction fuel with
  | zero => intro retry h; omega
  | succ n ih =>
    intro retry _
    cases n with
    | zero =>
      rw [execFrom_timeout_last b _ retry rfl]
    | succ m =>
      have hrec := ih (retry + 1) (Nat.succ_pos m)
      rw [execFrom_timeout_step b _ (m + 1) retry rfl (Nat.succ_ne_zero m)]
      exact hrec

/-! ### Claims about the request executor -/

/-- C1: with `max_request_retries = N > 0`, an operation that fails on
every attempt is invoked exactly `N` times, the backoff sleep happens
exactly `N - 1` times (never after the final failing attempt), and the
call ends by raising (exhaustion).  At `N = 1` this gives one attempt
and no backoff sleep. -/
theorem C1_permanent_failure_attempts_and_sleeps (N b : Nat) (op : Nat → ReqOutcome α)
    (hN : 0 < N) (hop : ∀ i v, op i ≠ .success v) :
    (makeApiRequestAsync N b op).invocations = N ∧
    (makeApiRequestAsync N b op).sleeps.length = N - 1 ∧
    (makeApiRequestAsync N b op).result.isExhaustion = true :=
  execFrom_allFail b op hop N 0 hN

/-- Witness for C1 at the `N = 1` edge case: one attempt, no backoff. -/
theorem C1_witness :
    (makeApiRequestAsync 1 30 (fun _ => (.timeout : ReqOutcome Unit))).invocations = 1 ∧
    (makeApiRequestAsync 1 30 (fun _ => (.timeout : ReqOutcome Unit))).sleeps.length = 1 - 1 ∧
    (makeApiRequestAsync 1 30 (fun _ => (.timeout : ReqOutcome Unit))).result.isExhaustion
      = true :=
  C1_permanent_failure_attempts_and_sleeps 1 30 (fun _ => .timeout) (by decide)
    (fun i v h => ReqOutcome.noConfusion h)

/-- C2: on every attempt actually made, the deadline handed to
`asyncio.wait_for` for attempt `i` (0-based) is `base_timeout * (i + 1)`,
the backoff sleep taken before attempt `i + 1` is `1 * (i + 1)` seconds,
and (for positive `base_timeout`) the per-attempt deadline strictly
increases with the attempt index. -/
theorem C2_linear_timeout_and_backoff (N b : Nat) (op : Nat → ReqOutcome α) (hb : 0 < b) :
    (∀ i, i < (makeApiRequestAsync N b op).timeouts.length →
      (makeApiRequestAsync N b op).timeouts.getD i 0 = b * (i + 1)) ∧
    (∀ i, i < (makeApiRequestAsync N b op).sleeps.length →
      (makeApiRequestAsync N b op).sleeps.getD i 0 = 1 * (i + 1)) ∧
    (∀ i j, i < j → j < (makeApiRequestAsync N b op).timeouts.length →
      (makeApiRequestAsync N b op).timeouts.getD i 0
        < (makeApiRequestAsync N b op).timeouts.getD j 0) := by
  refine ⟨?_, ?_, ?_⟩
  · intro i hi
    have := execFrom_timeouts_getD b op N 0 i hi
    simpa using this
  · intro i hi
    have := execFrom_sleeps_getD b op N 0 i hi
    simpa using this
  · intro i j hij hj
    have h1 := execFrom_timeouts_getD b op N 0 i (Nat.lt_trans hij hj)
    have h2 := execFrom_timeouts_getD b op N 0 j hj
    simp only [Nat.zero_add] at h1 h2
    simp only [makeApiRequestAsync] at h1 h2 ⊢
    rw [h1, h2]
    exact (Nat.mul_lt_mul_left hb).mpr (by omega)

/-- Witness for C2 at `N = 3`, `b = 30`, a permanently failing operation:
deadlines 30, 60, 90 and sleeps 1, 2. -/
theorem C2_witness :
    (∀ i, i < (makeApiRequestAsync 3 30 (fun _ => (.timeout : ReqOutcome Unit))).timeouts.length →
      (makeApiRequestAsync 3 30 (fun _ => (.timeout : ReqOutcome Unit))).timeouts.getD i 0
        = 30 * (i + 1)) ∧
    (∀ i, i < (makeApiRequestAsync 3 30 (fun _ => (.timeout : ReqOutcome Unit))).sleeps.length →
      (makeApiRequestAsync 3 30 (fun _ => (.timeout : ReqOutcome Unit))).sleeps.getD i 0
        = 1 * (i + 1)) ∧
    (∀ i j, i < j →
      j < (makeApiRequestAsync 3 30 (fun _ => (.timeout : ReqOutcome Unit))).timeouts.length →
      (makeApiRequestAsync 3 30 (fun _ => (.timeout : ReqOutcome Unit))).timeouts.getD i 0
        < (makeApiRequestAsync 3 30 (fun _ => (.timeout : ReqOutcome Unit))).timeouts.getD j 0) :=
  C2_linear_timeout_and_backoff 3 30 (fun _ => .timeout) (by decide)

/-- C3: if every attempt fails with a non-timeout error, the final
failure re-raises the last attempt's original error unchanged; if every
attempt fails with a deadline expiry, the executor raises its own
`TimeoutError` instead. -/
theorem C3_final_error_preserved (N b : Nat) (hN : 0 < N) :
    (∀ es : Nat → Err,
      (makeApiRequestAsync N b (fun i => (.failure (es i) : ReqOutcome Unit))).result
        = .errRaised (es (N - 1))) ∧
    (makeApiRequestAsync N b (fun _ => (.timeout : ReqOutcome Unit))).result
      = .timedOutExhausted := by
  constructor
  · intro es
    have := execFrom_allFailure b es N 0 hN
    simpa using this
  · exact execFrom_allTimeout b N 0 hN

/-- Witness for C3 at `N = 2`: the re-raised error is the error of
attempt index 1 (the last attempt). -/
theorem C3_witness :
    (∀ es : Nat → Err,
      (makeApiRequestAsync 2 30 (fun i => (.failure (es i) : ReqOutcome Unit))).result
        = .errRaised (es (2 - 1))) ∧
    (makeApiRequestAsync 2 30 (fun _ => (.timeout : ReqOutcome Unit))).result
      = .timedOutExhausted :=
  C3_final_error_preserved 2 30 (by decide)

/-- C9: with `max_request_retries = 0` the `for` loop body is never
entered: the operation is never invoked, nothing is raised, and the
function implicitly returns `None`. -/
theorem C9_zero_retries_returns_none (b : Nat) (op : Nat → ReqOutcome α) :
    makeApiRequestAsync 0 b op = ⟨.noneReturned, 0, [], []⟩ :=
  rfl

/-! ### Branch lemmas for `pollStep` -/

theorem pollStep_flagFalse (cfg : PollConfig) (env : PollEnv) (s : PState)
    (hf : env.flag s.iter = false) :
    pollStep cfg env s = .done .cancelledFlag s := by
  simp [pollStep, hf]

theorem pollStep_recover_status (cfg : PollConfig) (env : PollEnv) (s : PState)
    (st : RunStatus)
    (hf : env.flag s.iter = true)
    (hr : env.retrieves s.readIdx = .ok st)
    (hrec : st.isRecoverable = true)
    (hlt : s.retryCount < cfg.maxRunRetries)
    (hc : env.creates s.recreations = .ok ()) :
    pollStep cfg env s =
      .next { s with readIdx := s.readIdx + 1, retryCount := s.retryCount + 1,
                     recreations := s.recreations + 1, gen := s.gen + 1,
                     iter := s.iter + 1 } := by
  simp [pollStep, hf, hr, hrec, hlt, hc]

theorem pollStep_status_exhausted (cfg : PollConfig) (env : PollEnv) (s : PState)
    (st : RunStatus)
    (hf : env.flag s.iter = true)
    (hr : env.retrieves s.readIdx = .ok st)
    (hrec : st.isRecoverable = true)
    (hge : ¬ s.retryCount < cfg.maxRunRetries) :
    pollStep cfg env s = .done .statusExhausted { s with readIdx := s.readIdx + 1 } := by
  simp [pollStep, hf, hr, hrec, hge]

theorem pollStep_timeout_recover (cfg : PollConfig) (env : PollEnv) (s : PState)
    (st : RunStatus)
    (hf : env.flag s.iter = true)
    (hr : env.retrieves s.readIdx = .ok st)
    (hrec : st.isRecoverable = false)
    (hact : st.isActive = true)
    (hto : cfg.runTimeout < env.clock s.clockIdx - s.startTime)
    (hlt : s.retryCount < cfg.maxRunRetries)
    (hc : env.creates s.recreations = .ok ()) :
    pollStep cfg env s =
      .next { s with readIdx := s.readIdx + 1, retryCount := s.retryCount + 1,
                     cancelsAttempted := s.cancelsAttempted + 1,
                     recreations := s.recreations + 1, gen := s.gen + 1,
                     startTime := env.clock (s.clockIdx + 1),
                     clockIdx := s.clockIdx + 2, iter := s.iter + 1 } := by
  cases hcan : env.cancels s.cancelsAttempted with
  | error e => simp [pollStep, hf, hr, hrec, hact, hto, hlt, hc, hcan]
  | ok u => simp [pollStep, hf, hr, hrec, hact, hto, hlt, hc, hcan]

theorem pollStep_timeout_exhausted (cfg : PollConfig) (env : PollEnv) (s : PState)
    (st : RunStatus)
    (hf : env.flag s.iter = true)
    (hr : env.retrieves s.readIdx = .ok st)
    (hrec : st.isRecoverable = false)
    (hact : st.isActive = true)
    (hto : cfg.runTimeout < env.clock s.clockIdx - s.startTime)
    (hge : ¬ s.retryCount < cfg.maxRunRetries) :
    pollStep cfg env s =
      .done .pollTimedOut { s with readIdx := s.readIdx + 1, clockIdx := s.clockIdx + 1 } := by
  simp [pollStep, hf, hr, hrec, hact, hto, hge]

theorem pollStep_sleep (cfg : PollConfig) (env : PollEnv) (s : PState)
    (st : RunStatus)
    (hf : env.flag s.iter = true)
    (hr : env.retrieves s.readIdx = .ok st)
    (hrec : st.isRecoverable = false)
    (hact : st.isActive = true)
    (hto : ¬ cfg.runTimeout < env.clock s.clockIdx - s.startTime) :
    pollStep cfg env s =
      .next { s with readIdx := s.readIdx + 1, clockIdx := s.clockIdx + 1,
                     sleeps := s.sleeps + 1, iter := s.iter + 1 } := by
  simp [pollStep, hf, hr, hrec, hact, hto]

theorem pollStep_terminal_no_callback (cfg : PollConfig) (env : PollEnv) (s : PState)
    (st : RunStatus)
    (hf : env.flag s.iter = true)
    (hr : env.retrieves s.readIdx = .ok st)
    (hrec : st.isRecoverable = false)
    (hact : st.isActive = false)
    (hcb : env.callbackRes = none) :
    pollStep cfg env s = .done (.completedRun ⟨s.gen, st⟩) { s with readIdx := s.readIdx + 1 } := by
  simp [pollStep, hf, hr, hrec, hact, hcb]

theorem pollStep_terminal_callback_ok (cfg : PollConfig) (env : PollEnv) (s : PState)
    (st : RunStatus) (cb : Run → Except Err Unit)
    (hf : env.flag s.iter = true)
    (hr : env.retrieves s.readIdx = .ok st)
    (hrec : st.isRecoverable = false)
    (hact : st.isActive = false)
    (hcb : env.callbackRes = some cb)
    (hres : cb ⟨s.gen, st⟩ = .ok ()) :
    pollStep cfg env s =
      .done (.completedRun ⟨s.gen, st⟩)
        { s with readIdx := s.readIdx + 1,
                 callbackArgs := s.callbackArgs ++ [⟨s.gen, st⟩] } := by
  simp [pollStep, hf, hr, hrec, hact, hcb, hres]

theorem pollStep_terminal_callback_raises (cfg : PollConfig) (env : PollEnv) (s : PState)
    (st : RunStatus) (cb : Run → Except Err Unit) (e : Err)
    (hf : env.flag s.iter = true)
    (hr : env.retrieves s.readIdx = .ok st)
    (hrec : st.isRecoverable = false)
    (hact : st.isActive = false)
    (hcb : env.callbackRes = some cb)
    (hres : cb ⟨s.gen, st⟩ = .error e) :
    pollStep cfg env s =
      .done (.callbackError e)
        { s with readIdx := s.readIdx + 1,
                 callbackArgs := s.callbackArgs ++ [⟨s.gen, st⟩] } := by
  simp [pollStep, hf, hr, hrec, hact, hcb, hres]

/-! ### The shared recovery budget -/

/-- Both recovery triggers consume the same `retry_count`; every create
call is guarded by `retry_count < max_run_retries` and accompanied by
one increment, so along every step `recreations = retryCount` and
`retryCount ≤ maxRunRetries` are preserved. -/
theorem pollStep_budget (cfg : PollConfig) (env : PollEnv) (s : PState)
    (h1 : s.recreations = s.retryCount) (h2 : s.retryCount ≤ cfg.maxRunRetries) :
    ((pollStep cfg env s).state.recreations = (pollStep cfg env s).state.retryCount) ∧
    ((pollStep cfg env s).state.retryCount ≤ cfg.maxRunRetries) := by
  cases hf : env.flag s.iter with
  | false => simp [pollStep_flagFalse cfg env s hf, StepRes.state, h1, h2]
  | true =>
    cases hr : env.retrieves s.readIdx with
    | error e => simp [pollStep, hf, hr, StepRes.state, h1, h2]
    | ok st =>
      cases hrec : st.isRecoverable with
      | true =>
        by_cases hlt : s.retryCount < cfg.maxRunRetries
        · cases hc : env.creates s.recreations with
          | error e =>
            simp only [pollStep, hf, hr, hrec, hlt, hc]
            simp [StepRes.state, h1]
            omega
          | ok u =>
            simp only [pollStep, hf, hr, hrec, hlt, hc]
            simp [StepRes.state, h1]
            omega
        · simp [pollStep_status_exhausted cfg env s st hf hr hrec hlt, StepRes.state, h1, h2]
      | false =>
        cases hact : st.isActive with
        | true =>
          by_cases hto : cfg.runTimeout < env.clock s.clockIdx - s.startTime
          · by_cases hlt : s.retryCount < cfg.maxRunRetries
            · cases hcan : env.cancels s.cancelsAttempted with
              | error e2 =>
                cases hc : env.creates s.recreations with
                | error e =>
                  simp only [pollStep, hf, hr, hrec, hact, hto, hlt, hcan, hc]
                  simp [StepRes.state, h1]
                  omega
                | ok u =>
                  simp only [pollStep, hf, hr, hrec, hact, hto, hlt, hcan, hc]
                  simp [StepRes.state, h1]
                  omega
              | ok u2 =>
                cases hc : env.creates s.recreations with
                | error e =>
                  simp only [pollStep, hf, hr, hrec, hact, hto, hlt, hcan, hc]
                  simp [StepRes.state, h1]
                  omega
                | ok u =>
                  simp only [pollStep, hf, hr, hrec, hact, hto, hlt, hcan, hc]
                  simp [StepRes.state, h1]
                  omega
            · simp [pollStep_timeout_exhausted cfg env s st hf hr hrec hact hto hlt,
                StepRes.state, h1, h2]
          · simp [pollStep_sleep cfg env s st hf hr hrec hact hto, StepRes.state, h1, h2]
        | false =>
          cases hcb : env.callbackRes with
          | none =>
            simp [pollStep_terminal_no_callback cfg env s st hf hr hrec hact hcb,
              StepRes.state, h1, h2]
          | some cb =>
            cases hres : cb ⟨s.gen, st⟩ with
            | error e =>
              simp [pollStep_terminal_callback_raises cfg env s st cb e hf hr hrec hact hcb hres,
                StepRes.state, h1, h2]
            | ok u =>
              cases u
              simp [pollStep_terminal_callback_ok cfg env s st cb hf hr hrec hact hcb hres,
                StepRes.state, h1, h2]

theorem pollRun_succ (cfg : PollConfig) (env : PollEnv) (fuel : Nat) (s : PState) :
    pollRun cfg env (fuel + 1) s =
      match pollStep cfg env s with
      | .done o s' => some (o, s')
      | .next s' => pollRun cfg env fuel s' :=
  rfl

theorem isActive_not_recoverable (st : RunStatus) (h : st.isActive = true) :
    st.isRecoverable = false := by
  cases st <;> simp_all [RunStatus.isActive, RunStatus.isRecoverable]

theorem pollRun_budget (cfg : PollConfig) (env : PollEnv) :
    ∀ fuel s, s.recreations = s.retryCount → s.retryCount ≤ cfg.maxRunRetries →
      ∀ o s', pollRun cfg env fuel s = some (o, s') →
        s'.recreations = s'.retryCount ∧ s'.retryCount ≤ cfg.maxRunRetries := by
  intro fuel
  induction fuel with
  | zero => intro s h1 h2 o s' h; simp [pollRun] at h
  | succ n ih =>
    intro s h1 h2 o s' h
    have hb := pollStep_budget cfg env s h1 h2
    rw [pollRun_succ] at h
    cases hstep : pollStep cfg env s with
    | done o2 s2 =>
      rw [hstep] at h hb
      simp only [StepRes.state] at hb
      simp only [Option.some.injEq, Prod.mk.injEq] at h
      rcases h with ⟨_, hs⟩
      subst hs
      exact hb
    | next s2 =>
      rw [hstep] at h hb
      simp only [StepRes.state] at hb
      exact ih s2 hb.1 hb.2 o s' h

/-- The callback-argument trace changes only on the terminal-success
branch: every other way out of an iteration leaves it untouched. -/
theorem pollStep_callback_only_terminal (cfg : PollConfig) (env : PollEnv) (s : PState)
    (o : PollOutcome) (s' : PState)
    (hstep : pollStep cfg env s = .done o s')
    (hargs : s'.callbackArgs ≠ s.callbackArgs) :
    (∃ r, o = .completedRun r) ∨ (∃ e, o = .callbackError e) := by
  cases hf : env.flag s.iter with
  | false =>
    rw [pollStep_flagFalse cfg env s hf] at hstep
    cases hstep
    exact absurd rfl hargs
  | true =>
    cases hr : env.retrieves s.readIdx with
    | error e =>
      have : pollStep cfg env s = .done (.opError e) { s with readIdx := s.readIdx + 1 } := by
        simp [pollStep, hf, hr]
      rw [this] at hstep
      cases hstep
      exact absurd rfl hargs
    | ok st =>
      cases hrec : st.isRecoverable with
      | true =>
        by_cases hlt : s.retryCount < cfg.maxRunRetries
        · cases hc : env.creates s.recreations with
          | error e =>
            have : pollStep cfg env s = .done (.opError e)
                { s with readIdx := s.readIdx + 1, retryCount := s.retryCount + 1,
                         recreations := s.recreations + 1 } := by
              simp [pollStep, hf, hr, hrec, hlt, hc]
            rw [this] at hstep
            cases hstep
            exact absurd rfl hargs
          | ok u =>
            cases u
            rw [pollStep_recover_status cfg env s st hf hr hrec hlt hc] at hstep
            cases hstep
        · rw [pollStep_status_exhausted cfg env s st hf hr hrec hlt] at hstep
          cases hstep
          exact absurd rfl hargs
      | false =>
        cases hact : st.isActive with
        | true =>
          by_cases hto : cfg.runTimeout < env.clock s.clockIdx - s.startTime
          · by_cases hlt : s.retryCount < cfg.maxRunRetries
            · cases hcan : env.cancels s.cancelsAttempted with
              | error e2 =>
                cases hc : env.creates s.recreations with
                | error e =>
                  have : pollStep cfg env s = .done (.opError e)
                      { s with readIdx := s.readIdx + 1, clockIdx := s.clockIdx + 1,
                               cancelsAttempted := s.cancelsAttempted + 1,
                               retryCount := s.retryCount + 1,
                               recreations := s.recreations + 1 } := by
                    simp [pollStep, hf, hr, hrec, hact, hto, hlt, hcan, hc]
                  rw [this] at hstep
                  cases hstep
                  exact absurd rfl hargs
                | ok u =>
                  cases u
                  rw [pollStep_timeout_recover cfg env s st hf hr hrec hact hto hlt hc] at hstep
                  cases hstep
              | ok u2 =>
                cases hc : env.creates s.recreations with
                | error e =>
                  have : pollStep cfg env s = .done (.opError e)
                      { s with readIdx := s.readIdx + 1, clockIdx := s.clockIdx + 1,
                               cancelsAttempted := s.cancelsAttempted + 1,
                               retryCount := s.retryCount + 1,
                               recreations := s.recreations + 1 } := by
                    simp [pollStep, hf, hr, hrec, hact, hto, hlt, hcan, hc]
                  rw [this] at hstep
                  cases hstep
                  exact absurd rfl hargs
                | ok u =>
                  cases u
                  rw [pollStep_timeout_recover cfg env s st hf hr hrec hact hto hlt hc] at hstep
                  cases hstep
            · rw [pollStep_timeout_exhausted cfg env s st hf hr hrec hact hto hlt] at hstep
              cases hstep
              exact absurd rfl hargs
          · rw [pollStep_sleep cfg env s st hf hr hrec hact hto] at hstep
            cases hstep
        | false =>
          cases hcb : env.callbackRes with
          | none =>
            rw [pollStep_terminal_no_callback cfg env s st hf hr hrec hact hcb] at hstep
            cases hstep
            exact Or.inl ⟨_, rfl⟩
          | some cb =>
            cases hres : cb ⟨s.gen, st⟩ with
            | error e =>
              rw [pollStep_terminal_callback_raises cfg env s st cb e hf hr hrec hact hcb hres]
                at hstep
              cases hstep
              exact Or.inr ⟨e, rfl⟩
            | ok u =>
              cases u
              rw [pollStep_terminal_callback_ok cfg env s st cb hf hr hrec hact hcb hres] at hstep
              cases hstep
              exact Or.inl ⟨_, rfl⟩

theorem pollStep_retrieve_raises (cfg : PollConfig) (env : PollEnv) (s : PState) (e : Err)
    (hf : env.flag s.iter = true)
    (hr : env.retrieves s.readIdx = .error e) :
    pollStep cfg env s = .done (.opError e) { s with readIdx := s.readIdx + 1 } := by
  simp [pollStep, hf, hr]

theorem pollStep_status_create_raises (cfg : PollConfig) (env : PollEnv) (s : PState)
    (st : RunStatus) (e : Err)
    (hf : env.flag s.iter = true)
    (hr : env.retrieves s.readIdx = .ok st)
    (hrec : st.isRecoverable = true)
    (hlt : s.retryCount < cfg.maxRunRetries)
    (hc : env.creates s.recreations = .error e) :
    pollStep cfg env s = .done (.opError e)
      { s with readIdx := s.readIdx + 1, retryCount := s.retryCount + 1,
               recreations := s.recreations + 1 } := by
  simp [pollStep, hf, hr, hrec, hlt, hc]

theorem pollStep_timeout_create_raises (cfg : PollConfig) (env : PollEnv) (s : PState)
    (st : RunStatus) (e : Err)
    (hf : env.flag s.iter = true)
    (hr : env.retrieves s.readIdx = .ok st)
    (hrec : st.isRecoverable = false)
    (hact : st.isActive = true)
    (hto : cfg.runTimeout < env.clock s.clockIdx - s.startTime)
    (hlt : s.retryCount < cfg.maxRunRetries)
    (hc : env.creates s.recreations = .error e) :
    pollStep cfg env s = .done (.opError e)
      { s with readIdx := s.readIdx + 1, clockIdx := s.clockIdx + 1,
               cancelsAttempted := s.cancelsAttempted + 1,
               retryCount := s.retryCount + 1, recreations := s.recreations + 1 } := by
  cases hcan : env.cancels s.cancelsAttempted with
  | error e2 => simp [pollStep, hf, hr, hrec, hact, hto, hlt, hcan, hc]
  | ok u => simp [pollStep, hf, hr, hrec, hact, hto, hlt, hcan, hc]

/-- The result of the best-effort cancel call is discarded by the
`try/except: pass` on lines 63-70: replacing the whole stream of cancel
results changes nothing about an iteration. -/
theorem pollStep_cancels_irrelevant (cfg : PollConfig) (env : PollEnv) (s : PState)
    (f : Nat → Except Err Unit) :
    pollStep cfg { env with cancels := f } s = pollStep cfg env s := by
  cases hf : env.flag s.iter with
  | false =>
    rw [pollStep_flagFalse cfg { env with cancels := f } s hf, pollStep_flagFalse cfg env s hf]
  | true =>
    cases hr : env.retrieves s.readIdx with
    | error e =>
      rw [pollStep_retrieve_raises cfg { env with cancels := f } s e hf hr,
        pollStep_retrieve_raises cfg env s e hf hr]
    | ok st =>
      cases hrec : st.isRecoverable with
      | true =>
        by_cases hlt : s.retryCount < cfg.maxRunRetries
        · cases hc : env.creates s.recreations with
          | error e =>
            rw [pollStep_status_create_raises cfg { env with cancels := f } s st e hf hr hrec
                hlt hc,
              pollStep_status_create_raises cfg env s st e hf hr hrec hlt hc]
          | ok u =>
            cases u
            rw [pollStep_recover_status cfg { env with cancels := f } s st hf hr hrec hlt hc,
              pollStep_recover_status cfg env s st hf hr hrec hlt hc]
        · rw [pollStep_status_exhausted cfg { env with cancels := f } s st hf hr hrec hlt,
            pollStep_status_exhausted cfg env s st hf hr hrec hlt]
      | false =>
        cases hact : st.isActive with
        | true =>
          by_cases hto : cfg.runTimeout < env.clock s.clockIdx - s.startTime
          · by_cases hlt : s.retryCount < cfg.maxRunRetries
            · cases hc : env.creates s.recreations with
              | error e =>
                rw [pollStep_timeout_create_raises cfg { env with cancels := f } s st e hf hr
                    hrec hact hto hlt hc,
                  pollStep_timeout_create_raises cfg env s st e hf hr hrec hact hto hlt hc]
              | ok u =>
                cases u
                rw [pollStep_timeout_recover cfg { env with cancels := f } s st hf hr hrec hact
                    hto hlt hc,
                  pollStep_timeout_recover cfg env s st hf hr hrec hact hto hlt hc]
            · rw [pollStep_timeout_exhausted cfg { env with cancels := f } s st hf hr hrec hact
                  hto hlt,
                pollStep_timeout_exhausted cfg env s st hf hr hrec hact hto hlt]
          · rw [pollStep_sleep cfg { env with cancels := f } s st hf hr hrec hact hto,
              pollStep_sleep cfg env s st hf hr hrec hact hto]
        | false =>
          cases hcb : env.callbackRes with
          | none =>
            rw [pollStep_terminal_no_callback cfg
                { flag := env.flag, retrieves := env.retrieves, creates := env.creates,
                  cancels := f, clock := env.clock, callbackRes := none } s st hf hr hrec
                hact rfl,
              pollStep_terminal_no_callback cfg env s st hf hr hrec hact hcb]
          | some cb =>
            cases hres : cb ⟨s.gen, st⟩ with
            | error e =>
              rw [pollStep_terminal_callback_raises cfg
                  { flag := env.flag, retrieves := env.retrieves, creates := env.creates,
                    cancels := f, clock := env.clock, callbackRes := some cb } s st cb e hf
                  hr hrec hact rfl hres,
                pollStep_terminal_callback_raises cfg env s st cb e hf hr hrec hact hcb hres]
            | ok u =>
              cases u
              rw [pollStep_terminal_callback_ok cfg
                  { flag := env.flag, retrieves := env.retrieves, creates := env.creates,
                    cancels := f, clock := env.clock, callbackRes := some cb } s st cb hf hr
                  hrec hact rfl hres,
                pollStep_terminal_callback_ok cfg env s st cb hf hr hrec hact hcb hres]

theorem pollRun_cancels_irrelevant (cfg : PollConfig) (env : PollEnv)
    (f : Nat → Except Err Unit) :
    ∀ fuel s, pollRun cfg { env with cancels := f } fuel s = pollRun cfg env fuel s := by
  intro fuel
  induction fuel with
  | zero => intro s; rfl
  | succ n ih =>
    intro s
    rw [pollRun_succ, pollRun_succ, pollStep_cancels_irrelevant cfg env s f]
    cases pollStep cfg env s with
    | done o s' => rfl
    | next s' => exact ih s'

/-! ### Claims about the polling state machine -/

/-- C4 counterexample: the claim says the wall-clock timer is reset on
every recreation, but on the failed/expired/cancelled status-recovery
path the code never touches `start_time` (lines 37-47 contain no timer
reset and no clock read).  In the `envC4` session the first iteration
recreates the run after a `failed` status, keeps `start_time = 0` and
reads no clock; the freshly created run is then timed out on its very
first check (clock 31, budget exhausted), so it never had a full
`run_timeout` window of its own. -/
theorem C4_counterexample :
    pollStep cfgC4 envC4 (initState envC4) = .next stateC4 ∧
    stateC4.recreations = 1 ∧
    stateC4.startTime = (initState envC4).startTime ∧
    stateC4.clockIdx = (initState envC4).clockIdx ∧
    (initState envC4).startTime = 0 ∧
    envC4.clock 1 = 31 ∧
    pollRun cfgC4 envC4 2 (initState envC4)
      = some (.pollTimedOut, { stateC4 with readIdx := 2, clockIdx := 2 }) := by
  decide

/-- C4 (amended): the wall-clock timer is reset only on the
wall-clock-timeout recovery path (step 3, `start_time` set to a fresh
clock read); on the failed/expired/cancelled status-recovery path
(step 2) the recreation leaves `start_time` and the clock-read counter
unchanged, so a run recreated after a recoverable status inherits the
remaining window of the run it replaces. -/
theorem C4_timer_reset_only_on_timeout_recreation (cfg : PollConfig) (env : PollEnv)
    (s : PState) (st : RunStatus)
    (hf : env.flag s.iter = true)
    (hr : env.retrieves s.readIdx = .ok st) :
    (st.isRecoverable = true → s.retryCount < cfg.maxRunRetries →
      env.creates s.recreations = .ok () →
      pollStep cfg env s =
        .next { s with readIdx := s.readIdx + 1, retryCount := s.retryCount + 1,
                       recreations := s.recreations + 1, gen := s.gen + 1,
                       iter := s.iter + 1 }) ∧
    (st.isActive = true → cfg.runTimeout < env.clock s.clockIdx - s.startTime →
      s.retryCount < cfg.maxRunRetries → env.creates s.recreations = .ok () →
      pollStep cfg env s =
        .next { s with readIdx := s.readIdx + 1, retryCount := s.retryCount + 1,
                       cancelsAttempted := s.cancelsAttempted + 1,
                       recreations := s.recreations + 1, gen := s.gen + 1,
                       startTime := env.clock (s.clockIdx + 1),
                       clockIdx := s.clockIdx + 2, iter := s.iter + 1 }) := by
  constructor
  · intro hrec hlt hc
    exact pollStep_recover_status cfg env s st hf hr hrec hlt hc
  · intro hact hto hlt hc
    exact pollStep_timeout_recover cfg env s st hf hr (isActive_not_recoverable st hact)
      hact hto hlt hc

/-- Witness for the amended C4: in the `envC4` session the
status-triggered recreation produces `stateC4`, whose `startTime` field
is the inherited `initState` value. -/
theorem C4_witness :
    pollStep cfgC4 envC4 (initState envC4) = .next stateC4 :=
  (C4_timer_reset_only_on_timeout_recreation cfgC4 envC4 (initState envC4) .failed
    rfl rfl).1 rfl (by decide) rfl

/-- C5: the status-recovery and timeout-recovery triggers consume one
shared `retry_count` budget: the total number of recreate calls a
session ever makes is at most `max_run_retries`; and once the budget is
no longer below `max_run_retries`, a recoverable status raises the
status-exhaustion error while a wall-clock overrun raises the
polling-timeout error. -/
theorem C5_shared_budget (cfg : PollConfig) (env : PollEnv) :
    (∀ fuel o s', pollRun cfg env fuel (initState env) = some (o, s') →
      s'.recreations ≤ cfg.maxRunRetries) ∧
    (∀ s st, env.flag s.iter = true → env.retrieves s.readIdx = .ok st →
      ¬ s.retryCount < cfg.maxRunRetries →
      (st.isRecoverable = true →
        pollStep cfg env s = .done .statusExhausted { s with readIdx := s.readIdx + 1 }) ∧
      (st.isActive = true → cfg.runTimeout < env.clock s.clockIdx - s.startTime →
        pollStep cfg env s = .done .pollTimedOut
          { s with readIdx := s.readIdx + 1, clockIdx := s.clockIdx + 1 })) := by
  constructor
  · intro fuel o s' h
    have hb := pollRun_budget cfg env fuel (initState env) rfl (Nat.zero_le _) o s' h
    omega
  · intro s st hf hr hge
    constructor
    · intro hrec
      exact pollStep_status_exhausted cfg env s st hf hr hrec hge
    · intro hact hto
      exact pollStep_timeout_exhausted cfg env s st hf hr
        (isActive_not_recoverable st hact) hact hto hge

/-- Witness for C5: with `max_run_retries = 0` the very first `failed`
status exhausts the (empty) budget and raises, with zero recreations. -/
theorem C5_witness :
    ({ initState envC5 with readIdx := 1 } : PState).recreations ≤ cfgC5.maxRunRetries ∧
    pollStep cfgC5 envC5 (initState envC5)
      = .done .statusExhausted { initState envC5 with readIdx := 1 } := by
  have h := C5_shared_budget cfgC5 envC5
  constructor
  · exact h.1 1 .statusExhausted { initState envC5 with readIdx := 1 } (by decide)
  · exact (h.2 (initState envC5) .failed rfl rfl (by decide)).1 rfl

/-- C6: a session whose reads are `queued`, `in_progress`, `completed`
(never overrunning `run_timeout`) takes exactly 2 poll-interval sleeps,
invokes the completion callback exactly once, with the final run object,
and returns that run; and the callback-invocation trace can only change
on the terminal-success branch, never on any failure exit. -/
theorem C6_completion_two_sleeps_callback_once (cfg : PollConfig) (env : PollEnv)
    (cb : Run → Except Err Unit)
    (hf0 : env.flag 0 = true) (hf1 : env.flag 1 = true) (hf2 : env.flag 2 = true)
    (hr0 : env.retrieves 0 = .ok .queued)
    (hr1 : env.retrieves 1 = .ok .in_progress)
    (hr2 : env.retrieves 2 = .ok .completed)
    (hc1 : env.clock 1 - env.clock 0 ≤ cfg.runTimeout)
    (hc2 : env.clock 2 - env.clock 0 ≤ cfg.runTimeout)
    (hcb : env.callbackRes = some cb)
    (hok : cb ⟨0, .completed⟩ = .ok ()) :
    pollRun cfg env 3 (initState env)
      = some (.completedRun ⟨0, .completed⟩,
          { initState env with iter := 2, readIdx := 3, clockIdx := 3, sleeps := 2,
                               callbackArgs := [⟨0, .completed⟩] }) ∧
    (∀ t o tN, pollStep cfg env t = .done o tN → tN.callbackArgs ≠ t.callbackArgs →
      (∃ r, o = .completedRun r) ∨ (∃ e, o = .callbackError e)) := by
  constructor
  · have e1 : pollStep cfg env (initState env)
        = .next ⟨1, 1, 0, 0, 2, 0, 0, 1, env.clock 0, []⟩ := by
      have hto0 : ¬ cfg.runTimeout < env.clock 1 - env.clock 0 := by omega
      exact pollStep_sleep cfg env (initState env) .queued hf0 hr0 rfl rfl hto0
    have e2 : pollStep cfg env ⟨1, 1, 0, 0, 2, 0, 0, 1, env.clock 0, []⟩
        = .next ⟨2, 2, 0, 0, 3, 0, 0, 2, env.clock 0, []⟩ := by
      have hto1 : ¬ cfg.runTimeout < env.clock 2 - env.clock 0 := by omega
      exact pollStep_sleep cfg env _ .in_progress hf1 hr1 rfl rfl hto1
    have e3 : pollStep cfg env ⟨2, 2, 0, 0, 3, 0, 0, 2, env.clock 0, []⟩
        = .done (.completedRun ⟨0, .completed⟩)
            ⟨2, 3, 0, 0, 3, 0, 0, 2, env.clock 0, [⟨0, .completed⟩]⟩ := by
      exact pollStep_terminal_callback_ok cfg env _ .completed cb hf2 hr2 rfl rfl hcb hok
    show pollRun cfg env (2 + 1) (initState env) = _
    rw [pollRun_succ, e1]
    show pollRun cfg env (1 + 1) ⟨1, 1, 0, 0, 2, 0, 0, 1, env.clock 0, []⟩ = _
    rw [pollRun_succ, e2]
    show pollRun cfg env (0 + 1) ⟨2, 2, 0, 0, 3, 0, 0, 2, env.clock 0, []⟩ = _
    rw [pollRun_succ, e3]
    rfl
  · intro t o tN hstep hargs
    exact pollStep_callback_only_terminal cfg env t o tN hstep hargs

/-- Witness for C6 in the concrete `envC6` session. -/
theorem C6_witness :
    pollRun cfgC6 envC6 3 (initState envC6)
      = some (.completedRun ⟨0, .completed⟩,
          { initState envC6 with iter := 2, readIdx := 3, clockIdx := 3, sleeps := 2,
                                 callbackArgs := [⟨0, .completed⟩] }) ∧
    (∀ t o tN, pollStep cfgC6 envC6 t = .done o tN → tN.callbackArgs ≠ t.callbackArgs →
      (∃ r, o = .completedRun r) ∨ (∃ e, o = .callbackError e)) :=
  C6_completion_two_sleeps_callback_once cfgC6 envC6 (fun _ => .ok ())
    rfl rfl rfl rfl rfl rfl (by decide) (by decide) rfl rfl

/-- C7: once the process-wide stop flag reads false, the very next
loop-condition check ends the session: the iteration performs no
retrieve, no sleep and no state change, the session result is the
cancellation indicator (the implicit `return None`), and that result is
neither of the two budget-exhaustion errors. -/
theorem C7_flag_cleared_aborts (cfg : PollConfig) (env : PollEnv) (s : PState)
    (h : env.flag s.iter = false) :
    pollStep cfg env s = .done .cancelledFlag s ∧
    (∀ fuel, pollRun cfg env (fuel + 1) s = some (.cancelledFlag, s)) ∧
    (PollOutcome.cancelledFlag ≠ PollOutcome.statusExhausted ∧
     PollOutcome.cancelledFlag ≠ PollOutcome.pollTimedOut) := by
  refine ⟨pollStep_flagFalse cfg env s h, ?_, by decide, by decide⟩
  intro fuel
  rw [pollRun_succ, pollStep_flagFalse cfg env s h]

/-- Witness for C7 in the concrete `envC7` session. -/
theorem C7_witness :
    pollStep cfgC7 envC7 (initState envC7) = .done .cancelledFlag (initState envC7) ∧
    (∀ fuel, pollRun cfgC7 envC7 (fuel + 1) (initState envC7)
      = some (.cancelledFlag, initState envC7)) ∧
    (PollOutcome.cancelledFlag ≠ PollOutcome.statusExhausted ∧
     PollOutcome.cancelledFlag ≠ PollOutcome.pollTimedOut) :=
  C7_flag_cleared_aborts cfgC7 envC7 (initState envC7) rfl

/-- C8: the best-effort cancel on the timeout-recovery path never
escapes: replacing the entire stream of cancel-call results (including
making every cancel raise) changes neither one iteration nor a whole
session, and under the timeout-recovery conditions the session still
continues with the recreation step. -/
theorem C8_cancel_result_never_escapes (cfg : PollConfig) (env : PollEnv) (s : PState)
    (f : Nat → Except Err Unit) (fuel : Nat) :
    pollStep cfg { env with cancels := f } s = pollStep cfg env s ∧
    pollRun cfg { env with cancels := f } fuel s = pollRun cfg env fuel s ∧
    (∀ st, env.flag s.iter = true → env.retrieves s.readIdx = .ok st →
      st.isActive = true → cfg.runTimeout < env.clock s.clockIdx - s.startTime →
      s.retryCount < cfg.maxRunRetries → env.creates s.recreations = .ok () →
      pollStep cfg { env with cancels := f } s =
        .next { s with readIdx := s.readIdx + 1, retryCount := s.retryCount + 1,
                       cancelsAttempted := s.cancelsAttempted + 1,
                       recreations := s.recreations + 1, gen := s.gen + 1,
                       startTime := env.clock (s.clockIdx + 1),
                       clockIdx := s.clockIdx + 2, iter := s.iter + 1 }) := by
  refine ⟨pollStep_cancels_irrelevant cfg env s f,
    pollRun_cancels_irrelevant cfg env f fuel s, ?_⟩
  intro st hf hr hact hto hlt hc
  rw [pollStep_cancels_irrelevant cfg env s f]
  exact pollStep_timeout_recover cfg env s st hf hr (isActive_not_recoverable st hact)
    hact hto hlt hc

/-- Witness for C8: in the `envC8` session, with every cancel call
raising error 99, the timed-out first iteration still recreates and
continues identically. -/
theorem C8_witness :
    pollStep cfgC8 { envC8 with cancels := fun _ => .error 99 } (initState envC8)
      = pollStep cfgC8 envC8 (initState envC8) ∧
    pollRun cfgC8 { envC8 with cancels := fun _ => .error 99 } 1 (initState envC8)
      = pollRun cfgC8 envC8 1 (initState envC8) ∧
    pollStep cfgC8 { envC8 with cancels := fun _ => .error 99 } (initState envC8)
      = .next { initState envC8 with
                readIdx := 1, retryCount := 1, cancelsAttempted := 1,
                recreations := 1, gen := 1, startTime := 62, clockIdx := 3, iter := 1 } := by
  have h := C8_cancel_result_never_escapes cfgC8 envC8 (initState envC8)
    (fun _ => .error 99) 1
  exact ⟨h.1, h.2.1, h.2.2 .in_progress rfl rfl rfl (by decide) (by decide) rfl⟩

/-- C10: when the run reaches a terminal-success status but the
caller-supplied callback raises, the callback's error propagates out of
the session and the completed run object is not returned. -/
theorem C10_callback_error_propagates (cfg : PollConfig) (env : PollEnv) (s : PState)
    (st : RunStatus) (cb : Run → Except Err Unit) (e : Err)
    (hf : env.flag s.iter = true)
    (hr : env.retrieves s.readIdx = .ok st)
    (hrec : st.isRecoverable = false)
    (hact : st.isActive = false)
    (hcb : env.callbackRes = some cb)
    (herr : cb ⟨s.gen, st⟩ = .error e) :
    pollStep cfg env s = .done (.callbackError e)
      { s with readIdx := s.readIdx + 1, callbackArgs := s.callbackArgs ++ [⟨s.gen, st⟩] } ∧
    (∀ r t, pollStep cfg env s ≠ .done (.completedRun r) t) := by
  have h := pollStep_terminal_callback_raises cfg env s st cb e hf hr hrec hact hcb herr
  refine ⟨h, ?_⟩
  intro r t hcontra
  rw [h] at hcontra
  simp at hcontra

/-- Witness for C10 in the concrete `envC10` session: the completed run
is discarded and error 7 propagates. -/
theorem C10_witness :
    pollStep cfgC10 envC10 (initState envC10) = .done (.callbackError 7)
      { initState envC10 with readIdx := 1, callbackArgs := [⟨0, .completed⟩] } ∧
    (∀ r t, pollStep cfgC10 envC10 (initState envC10) ≠ .done (.completedRun r) t) :=
  C10_callback_error_propagates cfgC10 envC10 (initState envC10) .completed
    (fun _ => .error 7) 7 rfl rfl rfl rfl rfl rfl

end APIClientModel
